import Mathlib

/-!
Verification of the `dataviz` biogas sensor acquisition layer.

The Python sources are shallowly embedded:
* floating point quantities are modelled as exact rationals (`ℚ`);
* `np.random.normal(0, sigma)` draws are modelled as `sigma * z` for an
  arbitrary rational `z` supplied as an input, so theorems quantify over
  every possible draw;
* the `np.sin` evaluations inside `_generate_sine_variation` are supplied
  as inputs `s` (the value of the sine at the current time), so theorems
  quantify over every elapsed time;
* `datetime.now()` is supplied as a rational input `now`;
* buffers (`queue.Queue`, `collections.deque`) are lists with the head as
  the oldest element; the producer threads are modelled as explicit loops
  over traces of per-iteration events.
-/

/-- `np.clip(x, lo, hi)`: clamp `x` into `[lo, hi]`
(`sensor_simulator.py`, used at lines 72 and 239). -/
def np_clip (x lo hi : ℚ) : ℚ := min (max x lo) hi

/-- Python's `round` to an integer: round half to even (banker's rounding). -/
def roundHalfEven (x : ℚ) : ℤ :=
  if x - (⌊x⌋ : ℚ) < 1/2 then ⌊x⌋
  else if 1/2 < x - (⌊x⌋ : ℚ) then ⌊x⌋ + 1
  else if ⌊x⌋ % 2 = 0 then ⌊x⌋ else ⌊x⌋ + 1

/-- Python's `round(x, ndigits)` on our rational model of floats. -/
def pyRound (x : ℚ) (ndigits : ℕ) : ℚ :=
  (roundHalfEven (x * 10 ^ ndigits) : ℚ) / 10 ^ ndigits

/-- Python's `int(...)` applied to a float: truncation toward zero. -/
def int_of_float (q : ℚ) : ℤ := if 0 ≤ q then ⌊q⌋ else ⌈q⌉

/-- State of `BiogasSensorSimulator` (`sensor_simulator.py` lines 14-49).
Numeric fields are rationals; `state` is the status flag
(0=measurement, 1=error, 2=normal). -/
structure BiogasSensorSimulator where
  base_temp : ℚ
  base_pressure : ℚ
  base_flow : ℚ
  base_ch4_concentration : ℚ
  noise_level : ℚ
  state : ℤ
  time_offset : ℚ
  ambient_temp : ℚ
  flow_thermistor_offset : ℚ
  comp_thermistor_offset : ℚ
  deriving DecidableEq

/-- `BiogasSensorSimulator.__init__` (lines 14-49): stores the base
parameters unchanged and fixes `state = 2`, `time_offset = 0`,
`ambient_temp = base_temp`, thermistor offsets 5.0 and 15.0. -/
def BiogasSensorSimulator.init (base_temp base_pressure base_flow
    base_ch4_concentration noise_level : ℚ) : BiogasSensorSimulator :=
  { base_temp := base_temp
    base_pressure := base_pressure
    base_flow := base_flow
    base_ch4_concentration := base_ch4_concentration
    noise_level := noise_level
    state := 2
    time_offset := 0
    ambient_temp := base_temp
    flow_thermistor_offset := 5
    comp_thermistor_offset := 15 }

/-- `_add_noise(value, noise_factor)` (lines 51-54): adds a draw from
`Normal(0, noise_level * noise_factor * abs(value))`.  The draw is
modelled as `sigma * z` with `z` an arbitrary standard-normal sample
supplied as an input. -/
def BiogasSensorSimulator._add_noise (sim : BiogasSensorSimulator)
    (value noise_factor z : ℚ) : ℚ :=
  value + sim.noise_level * noise_factor * |value| * z

/-- `_generate_sine_variation(period_minutes, amplitude)` (lines 56-59):
returns `amplitude * sin(2*pi*t/(period_minutes*60))`.  The sine value `s`
at the current time is supplied as an input (it is the only transcendental
part); `period_minutes` is kept for fidelity to the call sites. -/
def BiogasSensorSimulator._generate_sine_variation
    (_sim : BiogasSensorSimulator) (_period_minutes amplitude s : ℚ) : ℚ :=
  amplitude * s

/-- The three sine evaluations used by `generate_sensor_reading`
(lines 64-66), one per channel. -/
structure SineInputs where
  temp : ℚ
  flow : ℚ
  ch4 : ℚ
  deriving DecidableEq

/-- The standard-normal samples consumed by one `generate_sensor_reading`
call (lines 69-83), one per `_add_noise` call. -/
structure NoiseInputs where
  temp : ℚ
  pressure : ℚ
  flow : ℚ
  ch4 : ℚ
  power_flow : ℚ
  power_comp : ℚ
  comp : ℚ
  deriving DecidableEq

/-- `current_temp` (line 69). -/
def BiogasSensorSimulator.current_temp (sim : BiogasSensorSimulator)
    (sines : SineInputs) (noise : NoiseInputs) : ℚ :=
  sim._add_noise (sim.base_temp + sim._generate_sine_variation 15 2.0 sines.temp) 1 noise.temp

/-- `current_pressure` (line 70). -/
def BiogasSensorSimulator.current_pressure (sim : BiogasSensorSimulator)
    (noise : NoiseInputs) : ℚ :=
  sim._add_noise sim.base_pressure 0.01 noise.pressure

/-- `current_flow` (line 71). -/
def BiogasSensorSimulator.current_flow (sim : BiogasSensorSimulator)
    (sines : SineInputs) (noise : NoiseInputs) : ℚ :=
  sim._add_noise (sim.base_flow * (1 + sim._generate_sine_variation 5 0.2 sines.flow)) 1 noise.flow

/-- `current_ch4` (line 72): noised base + sine variation, clipped to `[0, 100]`. -/
def BiogasSensorSimulator.current_ch4 (sim : BiogasSensorSimulator)
    (sines : SineInputs) (noise : NoiseInputs) : ℚ :=
  np_clip (sim._add_noise (sim.base_ch4_concentration + sim._generate_sine_variation 20 5.0 sines.ch4) 1 noise.ch4) 0 100

/-- `flow_temp` (line 75). -/
def BiogasSensorSimulator.flow_temp (sim : BiogasSensorSimulator)
    (sines : SineInputs) (noise : NoiseInputs) : ℚ :=
  sim.current_temp sines noise + sim.flow_thermistor_offset

/-- `comp_temp` (line 76). -/
def BiogasSensorSimulator.comp_temp (sim : BiogasSensorSimulator)
    (sines : SineInputs) (noise : NoiseInputs) : ℚ :=
  sim.current_temp sines noise + sim.comp_thermistor_offset

/-- The affine power model for the flow thermistor, `0.5 + 0.01 * flow_temp`
(line 79, before noise). -/
def flow_power_of_temp (t : ℚ) : ℚ := 0.5 + 0.01 * t

/-- The affine power model for the compensation thermistor,
`1.2 + 0.015 * comp_temp` (line 80, before noise). -/
def comp_power_of_temp (t : ℚ) : ℚ := 1.2 + 0.015 * t

/-- `flow_power` (line 79). -/
def BiogasSensorSimulator.flow_power (sim : BiogasSensorSimulator)
    (sines : SineInputs) (noise : NoiseInputs) : ℚ :=
  sim._add_noise (flow_power_of_temp (sim.flow_temp sines noise)) 1 noise.power_flow

/-- `comp_power` (line 80). -/
def BiogasSensorSimulator.comp_power (sim : BiogasSensorSimulator)
    (sines : SineInputs) (noise : NoiseInputs) : ℚ :=
  sim._add_noise (comp_power_of_temp (sim.comp_temp sines noise)) 1 noise.power_comp

/-- `comp_ratio` (line 83): noised `comp_power / flow_power`. -/
def BiogasSensorSimulator.comp_ratio (sim : BiogasSensorSimulator)
    (sines : SineInputs) (noise : NoiseInputs) : ℚ :=
  sim._add_noise (sim.comp_power sines noise / sim.flow_power sines noise) 1 noise.comp

/-- The dictionary returned by `generate_sensor_reading` (lines 85-93). -/
structure SensorReading where
  type : String
  state : ℤ
  temp : ℚ
  pressure : ℚ
  flow : ℚ
  comp : ℚ
  ch4_concentration : ℚ
  deriving DecidableEq

/-- `generate_sensor_reading` (lines 61-93): assembles the reading from the
intermediate quantities, rounding `temp`, `pressure`, `flow` to 2 decimals,
`comp` to 3 and `ch4_concentration` to 1. -/
def BiogasSensorSimulator.generate_sensor_reading (sim : BiogasSensorSimulator)
    (sines : SineInputs) (noise : NoiseInputs) : SensorReading :=
  { type := "BOMAD_flow"
    state := sim.state
    temp := pyRound (sim.current_temp sines noise) 2
    pressure := pyRound (sim.current_pressure noise) 2
    flow := pyRound (sim.current_flow sines noise) 2
    comp := pyRound (sim.comp_ratio sines noise) 3
    ch4_concentration := pyRound (sim.current_ch4 sines noise) 1 }

/-- `adjust_ch4_concentration` (lines 237-239): clips the new base value
into `[0, 100]` before storing it. -/
def BiogasSensorSimulator.adjust_ch4_concentration (sim : BiogasSensorSimulator)
    (new_concentration : ℚ) : BiogasSensorSimulator :=
  { sim with base_ch4_concentration := np_clip new_concentration 0 100 }

/-- The standard-normal samples consumed for one device block inside
`generate_csv_row` (lines 113-125), one per `_add_noise` call. -/
structure DevNoise where
  temp_ambient : ℚ
  pressure : ℚ
  temp_flow : ℚ
  power_flow : ℚ
  vin_flow : ℚ
  vout_flow : ℚ
  temp_comp : ℚ
  power_comp : ℚ
  vin_comp : ℚ
  vout_comp : ℚ
  deriving DecidableEq

/-- One per-device block of `generate_csv_row` (`d0_*` or `d1_*` fields). -/
structure DeviceRow where
  state : ℤ
  temp_ambient : ℚ
  pressure : ℚ
  temp_flow : ℚ
  power_flow : ℚ
  vin_flow : ℚ
  vout_flow : ℚ
  temp_comp : ℚ
  power_comp : ℚ
  vin_comp : ℚ
  vout_comp : ℚ
  deriving DecidableEq

/-- The body of the `for device in ['d0', 'd1']` loop of `generate_csv_row`
(lines 110-125), for one device with its `multiplier`. -/
def BiogasSensorSimulator.deviceReadings (sim : BiogasSensorSimulator)
    (reading : SensorReading) (multiplier : ℚ) (z : DevNoise) : DeviceRow :=
  { state := reading.state
    temp_ambient := sim._add_noise (reading.temp * multiplier) 1 z.temp_ambient
    pressure := sim._add_noise (reading.pressure * multiplier) 1 z.pressure
    temp_flow := sim._add_noise ((reading.temp + sim.flow_thermistor_offset) * multiplier) 1 z.temp_flow
    power_flow := sim._add_noise (0.5 * multiplier) 1 z.power_flow
    vin_flow := sim._add_noise 3.3 1 z.vin_flow
    vout_flow := sim._add_noise (1.65 * multiplier) 1 z.vout_flow
    temp_comp := sim._add_noise ((reading.temp + sim.comp_thermistor_offset) * multiplier) 1 z.temp_comp
    power_comp := sim._add_noise (1.2 * multiplier) 1 z.power_comp
    vin_comp := sim._add_noise 3.3 1 z.vin_comp
    vout_comp := sim._add_noise (2.1 * multiplier) 1 z.vout_comp }

/-- The row returned by `generate_csv_row` (lines 95-127). -/
structure CsvRow where
  datetime : ℚ
  state : ℤ
  temp_degC : ℚ
  humidity_perc_rH : ℚ
  flow : ℚ
  concentration_ch4 : ℚ
  d0 : DeviceRow
  d1 : DeviceRow
  deriving DecidableEq

/-- `generate_csv_row` (lines 95-127): reuses `generate_sensor_reading` and
adds the per-device blocks with multipliers `1.0` (device `d0`) and `1.05`
(device `d1`). -/
def BiogasSensorSimulator.generate_csv_row (sim : BiogasSensorSimulator)
    (sines : SineInputs) (noise : NoiseInputs) (now zHumidity : ℚ)
    (z0 z1 : DevNoise) : CsvRow :=
  let reading := sim.generate_sensor_reading sines noise
  { datetime := now
    state := reading.state
    temp_degC := reading.temp
    humidity_perc_rH := sim._add_noise 65.0 0.1 zHumidity
    flow := reading.flow
    concentration_ch4 := reading.ch4_concentration
    d0 := sim.deviceReadings reading 1.0 z0
    d1 := sim.deviceReadings reading 1.05 z1 }

/-- `collections.deque(maxlen=m).append(x)` (`dashboard.py` line 52,
`thingsboard_integration.py` line 222): appending to a full deque discards
the oldest (leftmost) element.  Head of the list is the oldest element. -/
def dequeAppend {α : Type} (maxlen : ℕ) (buf : List α) (x : α) : List α :=
  (buf ++ [x]).drop (buf.length + 1 - maxlen)

/-- `queue.Queue(maxsize=m).full()`: true when `m > 0` and the queue holds
at least `m` elements (a `maxsize` of 0 means unbounded). -/
def queueFull {α : Type} (maxsize : ℕ) (q : List α) : Bool :=
  decide (0 < maxsize ∧ maxsize ≤ q.length)

/-- The insertion step of `ThreadedSensorSimulator._generate_data`
(`sensor_simulator.py` lines 274-281): if the queue is full, drop the
oldest element with `get_nowait()`, then `put` the new one at the back. -/
def queuePutEvict {α : Type} (maxsize : ℕ) (q : List α) (x : α) : List α :=
  if queueFull maxsize q then q.drop 1 ++ [x] else q ++ [x]

/-- `ThreadedSensorSimulator.get_all_data` (lines 297-305): repeatedly
`get_nowait()` until the queue is empty, collecting in FIFO order. -/
def ThreadedSensorSimulator.get_all_data {α : Type} : List α → List α
  | [] => []
  | x :: q => x :: ThreadedSensorSimulator.get_all_data q

/-- The drain loop of `ThreadedSensorSimulator.get_latest_data`
(lines 288-293): `latest` starts as `None` and is overwritten by each
`get_nowait()` until the queue is empty. -/
def drainLatest {α : Type} : Option α → List α → Option α × List α
  | latest, [] => (latest, [])
  | _, x :: q => drainLatest (some x) q

/-- `ThreadedSensorSimulator.get_latest_data` (lines 286-295): destructively
drains the queue, returning the last element it removed (or `None`).
The second component is the queue state after the call. -/
def ThreadedSensorSimulator.get_latest_data {α : Type} (q : List α) :
    Option α × List α :=
  drainLatest none q

/-- `SerialDataReader.get_latest_data` (`dashboard.py` lines 133-137):
returns `data_buffer[-1]` when the deque is nonempty, `None` otherwise.
The deque is not modified, so the second component is the unchanged buffer. -/
def SerialDataReader.get_latest_data {α : Type} (buf : List α) :
    Option α × List α :=
  (buf.getLast?, buf)

/-- `SerialDataReader.get_data_buffer` (lines 139-141): `list(self.data_buffer)`. -/
def SerialDataReader.get_data_buffer {α : Type} (buf : List α) : List α := buf

/-- `ThingsBoardSensorReader.get_latest_from_buffer`
(`thingsboard_integration.py` lines 362-366): returns `data_buffer[-1]`
when nonempty, `None` otherwise; the deque is not modified. -/
def ThingsBoardSensorReader.get_latest_from_buffer {α : Type} (buf : List α) :
    Option α × List α :=
  (buf.getLast?, buf)

/-- `ThingsBoardSensorReader.get_buffered_data` (lines 358-360):
`list(self.data_buffer)`. -/
def ThingsBoardSensorReader.get_buffered_data {α : Type} (buf : List α) :
    List α := buf

/-- Values stored in the dictionaries exchanged by the serial and remote
paths: numbers, strings, `datetime` objects, and Python ints. -/
inductive Value where
  | num (q : ℚ)
  | int (n : ℤ)
  | str (s : String)
  | time (t : ℚ)
  deriving DecidableEq

/-- A Python dict in insertion order (keys kept unique by `dictSet`). -/
abbrev Obj : Type := List (String × Value)

/-- Dict lookup: first entry with the given key. -/
def objLookup : Obj → String → Option Value
  | [], _ => none
  | (k2, v) :: rest, k => if k2 = k then some v else objLookup rest k

/-- Python dict assignment `d[k] = v`: overwrite in place if the key
exists, otherwise append at the end (insertion order semantics). -/
def dictSet (o : Obj) (k : String) (v : Value) : Obj :=
  if (objLookup o k).isSome then
    o.map (fun kv => if kv.1 = k then (k, v) else kv)
  else o ++ [(k, v)]

/-- Python `str.strip()` on the character list: drop leading and trailing
whitespace. -/
def pyStrip (cs : List Char) : List Char :=
  ((cs.dropWhile Char.isWhitespace).reverse.dropWhile Char.isWhitespace).reverse

/-- Python `str.split(sep=",")`: split on every comma, keeping empty parts
(`"".split(",") == [""]`). -/
def splitCommas : List Char → List (List Char)
  | [] => [[]]
  | c :: cs =>
    if c = ',' then [] :: splitCommas cs
    else
      match splitCommas cs with
      | [] => [[c]]
      | p :: ps => (c :: p) :: ps

/-- Numeric value of a digit run (most significant first). -/
def digitsVal (cs : List Char) : ℕ :=
  cs.foldl (fun n c => 10 * n + (c.toNat - 48)) 0

/-- Unsigned decimal literal `digits [. digits]` with at least one digit,
as accepted by Python's `float`. -/
def decimalCore (cs : List Char) : Option ℚ :=
  let ip := cs.takeWhile Char.isDigit
  let rest := cs.dropWhile Char.isDigit
  match rest with
  | [] => if ip = [] then none else some (digitsVal ip : ℚ)
  | '.' :: fp =>
    if fp.all Char.isDigit ∧ (ip ≠ [] ∨ fp ≠ []) then
      some ((digitsVal ip : ℚ) + (digitsVal fp : ℚ) / 10 ^ fp.length)
    else none
  | _ => none

/-- Python `float(s)` restricted to plain decimal literals with an optional
sign and surrounding whitespace (the only forms the wire format of §6
produces); exotic forms (exponents, inf, nan) are out of the model. -/
def pyFloat (cs : List Char) : Option ℚ :=
  match pyStrip cs with
  | '-' :: rest => (decimalCore rest).map (fun q => -q)
  | '+' :: rest => decimalCore rest
  | rest => decimalCore rest

/-- JSON number: optional minus sign followed by a decimal literal. -/
def jsonNumber (cs : List Char) : Option ℚ :=
  match cs with
  | '-' :: rest => (decimalCore rest).map (fun q => -q)
  | _ => decimalCore cs

/-- JSON scalar value: a double-quoted string or a number. -/
def parseJsonValue (cs : List Char) : Option Value :=
  match cs with
  | [] => none
  | c :: rest =>
    if c = '"' then
      match rest.getLast? with
      | some q => if q = '"' then some (Value.str (rest.dropLast.asString)) else none
      | none => none
    else
      match jsonNumber (c :: rest) with
      | some v => some (Value.num v)
      | none => none

/-- One `"key":value` item of a flat JSON object. -/
def parseJsonPair (cs : List Char) : Option (String × Value) :=
  match pyStrip cs with
  | '"' :: rest =>
    let key := rest.takeWhile (fun c => c != '"')
    match rest.dropWhile (fun c => c != '"') with
    | '"' :: ':' :: v =>
      match parseJsonValue (pyStrip v) with
      | some val => some (key.asString, val)
      | none => none
    | _ => none
  | _ => none

/-- Modelled from the spec: the Python standard library function
`json.loads` is not part of this repository.  Section 6 specifies the JSON
wire unit as a flat object with string keys and numeric (or string) scalar
values, which is exactly what this parser accepts: `\x7b"k":v,...\x7d`
with no nesting and no exponents; anything else parses to `none`
(`json.loads` raising).  Keys are inserted with Python dict semantics. -/
def json_loads (cs : List Char) : Option Obj :=
  match pyStrip cs with
  | c :: rest =>
    if c = Char.ofNat 123 ∧ rest.getLast? = some (Char.ofNat 125) then
      let inner := rest.dropLast
      if pyStrip inner = [] then some [] else
        match (splitCommas inner).mapM parseJsonPair with
        | some pairs => some (pairs.foldl (fun o kv => dictSet o kv.1 kv.2) [])
        | none => none
    else none
  | [] => none

/-- `line.strip().startswith(chr(123))` (`dashboard.py` line 84), on an
already stripped character list. -/
def startsWithLBrace : List Char → Bool
  | c :: _ => c = Char.ofNat 123
  | [] => false

/-- `SerialDataReader.parse_serial_line` (`dashboard.py` lines 80-101).
Returns the parsed dict (or `None`) together with a flag recording whether
the `except` branch printed an error message.  `now` models
`datetime.now()`. -/
def SerialDataReader.parse_serial_line (now : ℚ) (line : String) :
    Option Obj × Bool :=
  let stripped := pyStrip line.toList
  if startsWithLBrace stripped then
    match json_loads stripped with
    | some o => (some o, false)
    | none => (none, true)
  else
    match splitCommas stripped with
    | p0 :: p1 :: p2 :: p3 :: p4 :: _ =>
      match pyFloat p0, pyFloat p1, pyFloat p2, pyFloat p3, pyFloat p4 with
      | some f0, some f1, some f2, some f3, some f4 =>
        (some [("timestamp", Value.time now),
               ("state", Value.int (int_of_float f0)),
               ("temp", Value.num f1),
               ("pressure", Value.num f2),
               ("flow", Value.num f3),
               ("comp", Value.num f4)], false)
      | _, _, _, _, _ => (none, true)
    | _ => (none, false)

/-- One telemetry data point of the remote API response:
`\x7b"value": ..., "ts": ...\x7d`, the `ts` key being optional
(`thingsboard_integration.py` lines 248-256). -/
structure TBPoint where
  value : Value
  ts : Option ℚ
  deriving DecidableEq

/-- The body of the `for key, data_list in telemetry.items()` loop of
`ThingsBoardSensorReader.get_latest_reading` (lines 248-256): take the
first point of a nonempty list, store its value under `key`, and when a
`ts` is present store `ts/1000` under `key + "_timestamp"`. -/
def tbEntryUpdates (reading : Obj) : String × List TBPoint → Obj
  | (_, []) => reading
  | (key, p :: _) =>
    let r1 := dictSet reading key p.value
    match p.ts with
    | some t => dictSet r1 (key ++ "_timestamp") (Value.time (t / 1000))
    | none => r1

/-- `ThingsBoardSensorReader.get_latest_reading` (lines 233-262): `None`
when the polled telemetry dict is empty (falsy), otherwise a dict seeded
with the current time and device identity, extended per telemetry key.
The HTTP call's response is the `telemetry` input; the surrounding
`except` branch is modelled at the loop level. -/
def ThingsBoardSensorReader.get_latest_reading (device_name device_id : String)
    (now : ℚ) (telemetry : List (String × List TBPoint)) : Option Obj :=
  if telemetry = [] then none
  else some (telemetry.foldl tbEntryUpdates
    [("timestamp", Value.time now),
     ("device_name", Value.str device_name),
     ("device_id", Value.str device_id)])

/-- Observable worker bookkeeping shared by the three reader classes:
the `running` flag and the number of live reader threads spawned. -/
structure WorkerState where
  running : Bool
  threads : ℕ
  deriving DecidableEq

/-- `ThreadedSensorSimulator.start` (`sensor_simulator.py` lines 251-259):
returns immediately when already running, otherwise sets the flag and
spawns one generator thread. -/
def ThreadedSensorSimulator.start (s : WorkerState) : WorkerState :=
  if s.running then s else { running := true, threads := s.threads + 1 }

/-- `ThreadedSensorSimulator.stop` (lines 261-265): clears the flag and
joins the thread; after the join no reader thread is alive. -/
def ThreadedSensorSimulator.stop (_s : WorkerState) : WorkerState :=
  { running := false, threads := 0 }

/-- `SerialDataReader.start` (`dashboard.py` lines 116-125): connects and,
with no check of `self.running`, sets the flag and spawns a reader thread.
`connectOk` models the result of `self.connect()`; on failure the state is
unchanged and `False` is returned. -/
def SerialDataReader.start (connectOk : Bool) (s : WorkerState) :
    WorkerState × Bool :=
  if connectOk then ({ running := true, threads := s.threads + 1 }, true)
  else (s, false)

/-- `SerialDataReader.stop` (lines 127-131): clears the flag and joins. -/
def SerialDataReader.stop (_s : WorkerState) : WorkerState :=
  { running := false, threads := 0 }

/-- `ThingsBoardSensorReader.start_continuous_reading`
(`thingsboard_integration.py` lines 322-332): returns immediately when
already running, otherwise sets the flag and spawns the read loop thread. -/
def ThingsBoardSensorReader.start_continuous_reading (s : WorkerState) :
    WorkerState :=
  if s.running then s else { running := true, threads := s.threads + 1 }

/-- `ThingsBoardSensorReader.stop_continuous_reading` (lines 334-342):
returns immediately when not running, otherwise clears the flag and joins. -/
def ThingsBoardSensorReader.stop_continuous_reading (s : WorkerState) :
    WorkerState :=
  if s.running then { running := false, threads := 0 } else s

/-- A reading stamped by `_generate_data` (`sensor_simulator.py` line 272):
`data["timestamp"] = datetime.now()` before the queue insert. -/
structure StampedReading where
  reading : SensorReading
  timestamp : ℚ
  deriving DecidableEq

/-- One iteration's input to `ThreadedSensorSimulator._generate_data`
(lines 267-284): either the random/sine/time inputs consumed by a
successful cycle, or an exception raised somewhere in the `try` body. -/
inductive SimEvent where
  | sample (sines : SineInputs) (noise : NoiseInputs) (now : ℚ)
  | raise (msg : String)
  deriving DecidableEq

/-- The `try` body of `_generate_data` (lines 270-282): generate a reading,
stamp it with the current time, and insert it into the queue
(`maxsize=1000`, line 247) evicting the oldest element when full. -/
def simStepBody (sim : BiogasSensorSimulator) (buf : List StampedReading) :
    SimEvent → Except String (List StampedReading)
  | SimEvent.sample sines noise now =>
    Except.ok (queuePutEvict 1000 buf
      { reading := sim.generate_sensor_reading sines noise, timestamp := now })
  | SimEvent.raise msg => Except.error msg

/-- One iteration's input to `SerialDataReader.read_data`
(`dashboard.py` lines 103-114): either the decoded line returned by
`readline()` (possibly empty) with the current time, or an exception
raised by the read. -/
inductive SerialEvent where
  | line (s : String) (now : ℚ)
  | raise (msg : String)
  deriving DecidableEq

/-- The `try` body of `read_data` (lines 106-111): skip empty lines, parse,
and append a truthy (non-`None`, nonempty) parse result to the deque. -/
def serialStepBody (max_buffer_size : ℕ) (buf : List Obj) :
    SerialEvent → Except String (List Obj)
  | SerialEvent.line s now =>
    Except.ok (if s = "" then buf
      else match (SerialDataReader.parse_serial_line now s).1 with
        | some d => if d = [] then buf else dequeAppend max_buffer_size buf d
        | none => buf)
  | SerialEvent.raise msg => Except.error msg

/-- One iteration's input to `ThingsBoardSensorReader._read_loop`
(`thingsboard_integration.py` lines 344-356): either a poll response with
the current time, or an exception raised by the poll. -/
inductive TBEvent where
  | poll (telemetry : List (String × List TBPoint)) (now : ℚ)
  | raise (msg : String)
  deriving DecidableEq

/-- The `try` body of `_read_loop` (lines 347-352): append a truthy reading
to the deque. -/
def tbStepBody (device_name device_id : String) (max_buffer_size : ℕ)
    (buf : List Obj) : TBEvent → Except String (List Obj)
  | TBEvent.poll telemetry now =>
    Except.ok (match ThingsBoardSensorReader.get_latest_reading
        device_name device_id now telemetry with
      | some r => if r = [] then buf else dequeAppend max_buffer_size buf r
      | none => buf)
  | TBEvent.raise msg => Except.error msg

/-- The shared `while self.running:` / `try ... except` producer loop shape
of the three workers (`sensor_simulator.py` 269-284, `dashboard.py`
105-114, `thingsboard_integration.py` 346-356): while the flag is set,
run the body on the next event; an exception is caught and the buffer kept
as it was (the cycle is skipped).  Returns the final buffer and the number
of iterations executed. -/
def workerLoop {β ε : Type} (stepBody : β → ε → Except String β)
    (running : Bool) : List ε → β → β × ℕ
  | [], buf => (buf, 0)
  | e :: es, buf =>
    if running then
      let buf2 := match stepBody buf e with
        | Except.ok b => b
        | Except.error _ => buf
      let p := workerLoop stepBody running es buf2
      (p.1, p.2 + 1)
    else (buf, 0)

/-- Zero sine evaluations: the instant where all three sinusoids vanish. -/
def zeroSines : SineInputs := { temp := 0, flow := 0, ch4 := 0 }

/-- Zero standard-normal samples for one reading. -/
def zeroNoise : NoiseInputs :=
  { temp := 0, pressure := 0, flow := 0, ch4 := 0
    power_flow := 0, power_comp := 0, comp := 0 }

/-- Zero standard-normal samples for one device block. -/
def zeroDevNoise : DevNoise :=
  { temp_ambient := 0, pressure := 0, temp_flow := 0, power_flow := 0
    vin_flow := 0, vout_flow := 0, temp_comp := 0, power_comp := 0
    vin_comp := 0, vout_comp := 0 }

/-- A simulator with `noise_level = 0` and `base_temp = 26`. -/
def simAt26 : BiogasSensorSimulator :=
  BiogasSensorSimulator.init 26 101.325 10 60 0

/-- A simulator with `noise_level = 0` and the default base values. -/
def simDefaultsNoNoise : BiogasSensorSimulator :=
  BiogasSensorSimulator.init 25 101.325 10 60 0

/-- A sample parsed reading used to exercise the buffer operations. -/
def sampleObj : Obj := [("state", Value.num 2)]

/-- A simulator with the default constructor arguments. -/
def simDefault : BiogasSensorSimulator :=
  BiogasSensorSimulator.init 25 101.325 10 60 0.05

/-- A sample stamped reading produced by the default simulator at time 5. -/
def sampleStamped : StampedReading :=
  { reading := simDefault.generate_sensor_reading zeroSines zeroNoise
    timestamp := 5 }

/-- A one-key telemetry poll response. -/
def sampleTelemetry : List (String × List TBPoint) :=
  [("temperature", [{ value := Value.num 21, ts := some 1000 }])]

/-- The dict seeded by `get_latest_reading` for device `dev`/`id0` at
time 5. -/
def tbSeed : Obj :=
  [("timestamp", Value.time 5), ("device_name", Value.str "dev"),
   ("device_id", Value.str "id0")]

/-- The dict produced by the CSV parse branch on `"1,2,3,4,5"` at time 5. -/
def sampleCsvObj : Obj :=
  [("timestamp", Value.time 5),
   ("state", Value.int (int_of_float (digitsVal ['1'] : ℚ))),
   ("temp", Value.num (digitsVal ['2'] : ℚ)),
   ("pressure", Value.num (digitsVal ['3'] : ℚ)),
   ("flow", Value.num (digitsVal ['4'] : ℚ)),
   ("comp", Value.num (digitsVal ['5'] : ℚ))]

lemma length_dequeAppend {α : Type} (N : ℕ) (b : List α) (x : α) :
    (dequeAppend N b x).length = b.length + 1 - (b.length + 1 - N) := by
  simp [dequeAppend]

lemma length_dequeAppend_le {α : Type} (N : ℕ) (b : List α) (x : α)
    (hb : b.length ≤ N) : (dequeAppend N b x).length ≤ N := by
  rw [length_dequeAppend]
  omega

lemma getLast?_cons_ne {α : Type} (x : α) (q : List α) (hq : q ≠ []) :
    (x :: q).getLast? = q.getLast? := by
  cases q with
  | nil => exact absurd rfl hq
  | cons y t => exact List.getLast?_cons_cons

lemma drop_append_drop {α : Type} (l xs : List α) (k m : ℕ)
    (hk : k ≤ l.length) :
    (l.drop k ++ xs).drop m = (l ++ xs).drop (k + m) := by
  rw [List.drop_append_eq_append_drop, List.drop_append_eq_append_drop,
    List.drop_drop, List.length_drop]
  have hidx : m - (l.length - k) = k + m - l.length := by omega
  rw [hidx]

lemma foldl_dequeAppend {α : Type} (N : ℕ) :
    ∀ (xs b : List α), b.length ≤ N →
      List.foldl (dequeAppend N) b xs = (b ++ xs).drop (b.length + xs.length - N) := by
  intro xs
  induction xs with
  | nil =>
    intro b hb
    simp [Nat.sub_eq_zero_of_le hb]
  | cons x xs ih =>
    intro b hb
    rw [List.foldl_cons, ih (dequeAppend N b x) (length_dequeAppend_le N b x hb),
      length_dequeAppend]
    have hstep : dequeAppend N b x = (b ++ [x]).drop (b.length + 1 - N) := rfl
    have hlen1 : (b ++ [x]).length = b.length + 1 := by simp
    have hk2 : b.length + 1 - N ≤ (b ++ [x]).length := by rw [hlen1]; omega
    rw [hstep, drop_append_drop (b ++ [x]) xs _ _ hk2]
    have h1 : (b ++ [x]) ++ xs = b ++ x :: xs := by simp
    rw [h1]
    congr 1
    simp only [List.length_cons]
    omega

lemma queuePutEvict_eq_dequeAppend {α : Type} (N : ℕ) (hN : 0 < N)
    (b : List α) (x : α) (hb : b.length ≤ N) :
    queuePutEvict N b x = dequeAppend N b x := by
  by_cases hfull : N ≤ b.length
  · have hcond : queueFull N b = true := by
      rw [queueFull]; exact decide_eq_true ⟨hN, hfull⟩
    rw [queuePutEvict, hcond]
    simp only [if_true]
    have h1 : b.length + 1 - N = 1 := by omega
    rw [dequeAppend, h1, List.drop_append_eq_append_drop]
    have h2 : 1 - b.length = 0 := by omega
    rw [h2, List.drop_zero]
  · have hx : ¬ (0 < N ∧ N ≤ b.length) := by omega
    have hcond : queueFull N b = false := by
      rw [queueFull]; exact decide_eq_false hx
    rw [queuePutEvict, hcond]
    simp only [Bool.false_eq_true, if_false]
    rw [dequeAppend]
    have h0 : b.length + 1 - N = 0 := by omega
    rw [h0, List.drop_zero]

lemma foldl_queuePutEvict {α : Type} (N : ℕ) (hN : 0 < N) :
    ∀ (xs b : List α), b.length ≤ N →
      List.foldl (queuePutEvict N) b xs = List.foldl (dequeAppend N) b xs := by
  intro xs
  induction xs with
  | nil => intro b _; rfl
  | cons x xs ih =>
    intro b hb
    rw [List.foldl_cons, List.foldl_cons,
      queuePutEvict_eq_dequeAppend N hN b x hb,
      ih (dequeAppend N b x) (length_dequeAppend_le N b x hb)]

lemma get_all_data_eq {α : Type} (q : List α) :
    ThreadedSensorSimulator.get_all_data q = q := by
  induction q with
  | nil => rfl
  | cons x q ih => rw [ThreadedSensorSimulator.get_all_data, ih]

lemma drainLatest_eq {α : Type} :
    ∀ (q : List α) (acc : Option α), q ≠ [] →
      drainLatest acc q = (q.getLast?, []) := by
  intro q
  induction q with
  | nil => intro acc h; exact absurd rfl h
  | cons x q ih =>
    intro acc _
    by_cases hq : q = []
    · subst hq; rfl
    · rw [drainLatest, ih (some x) hq, getLast?_cons_ne x q hq]

lemma getLast?_drop_of_lt {α : Type} :
    ∀ (k : ℕ) (xs : List α), k < xs.length →
      (xs.drop k).getLast? = xs.getLast? := by
  intro k
  induction k with
  | zero => intro xs _; rfl
  | succ k ih =>
    intro xs hk
    cases xs with
    | nil => simp at hk
    | cons x t =>
      have ht : k < t.length := by simpa using hk
      have hne : t ≠ [] := by
        intro h; rw [h] at ht; simp at ht
      rw [List.drop_succ_cons, ih t ht, getLast?_cons_ne x t hne]

lemma floor_le_roundHalfEven (x : ℚ) : ⌊x⌋ ≤ roundHalfEven x := by
  rw [roundHalfEven]
  split_ifs <;> omega

lemma roundHalfEven_le_ceil (x : ℚ) : roundHalfEven x ≤ ⌈x⌉ := by
  have hfc : ⌊x⌋ ≤ ⌈x⌉ := Int.floor_le_ceil x
  have hup : ¬ (x - (⌊x⌋ : ℚ) < 1/2) → ⌊x⌋ + 1 ≤ ⌈x⌉ := by
    intro h
    have hlt : (⌊x⌋ : ℚ) < x := by
      push_neg at h
      linarith
    have := Int.lt_ceil.mpr hlt
    omega
  rw [roundHalfEven]
  split_ifs with h1 h2 h3
  · exact hfc
  · exact hup h1
  · exact hfc
  · exact hup h1

lemma roundHalfEven_nonneg (x : ℚ) (hx : 0 ≤ x) : 0 ≤ roundHalfEven x :=
  le_trans (Int.le_floor.mpr (by simpa using hx)) (floor_le_roundHalfEven x)

lemma roundHalfEven_le_intCast (x : ℚ) (k : ℤ) (hk : x ≤ (k : ℚ)) :
    roundHalfEven x ≤ k :=
  le_trans (roundHalfEven_le_ceil x) (Int.ceil_le.mpr hk)

lemma pyRound_nonneg (x : ℚ) (n : ℕ) (hx : 0 ≤ x) : 0 ≤ pyRound x n := by
  rw [pyRound]
  apply div_nonneg
  · exact_mod_cast roundHalfEven_nonneg _ (mul_nonneg hx (by positivity))
  · positivity

lemma pyRound_le_hundred (x : ℚ) (n : ℕ) (hx : x ≤ 100) : pyRound x n ≤ 100 := by
  rw [pyRound, div_le_iff₀ (by positivity)]
  have hle : x * 10 ^ n ≤ ((100 * 10 ^ n : ℤ) : ℚ) := by
    push_cast
    exact mul_le_mul_of_nonneg_right hx (by positivity)
  have h := roundHalfEven_le_intCast (x * 10 ^ n) (100 * 10 ^ n) hle
  calc (roundHalfEven (x * 10 ^ n) : ℚ) ≤ ((100 * 10 ^ n : ℤ) : ℚ) := by
        exact_mod_cast h
    _ = 100 * 10 ^ n := by push_cast; ring

lemma np_clip_nonneg (x : ℚ) : 0 ≤ np_clip x 0 100 := by
  rw [np_clip]
  exact le_min (le_max_right x 0) (by norm_num)

lemma np_clip_le (x : ℚ) : np_clip x 0 100 ≤ 100 := min_le_right _ _

lemma objLookup_append_of_none (o o2 : Obj) (k : String)
    (h : objLookup o k = none) :
    objLookup (o ++ o2) k = objLookup o2 k := by
  induction o with
  | nil => rfl
  | cons kv rest ih =>
    obtain ⟨k1, v1⟩ := kv
    rw [List.cons_append]
    by_cases h1 : k1 = k
    · rw [objLookup, if_pos h1] at h
      exact absurd h (by simp)
    · rw [objLookup, if_neg h1] at h
      rw [objLookup, if_neg h1]
      exact ih h

lemma objLookup_append_of_some (o o2 : Obj) (k : String) (v : Value)
    (h : objLookup o k = some v) :
    objLookup (o ++ o2) k = some v := by
  induction o with
  | nil => exact absurd h (by simp [objLookup])
  | cons kv rest ih =>
    obtain ⟨k1, v1⟩ := kv
    rw [List.cons_append]
    by_cases h1 : k1 = k
    · rw [objLookup, if_pos h1] at h
      rw [objLookup, if_pos h1]
      exact h
    · rw [objLookup, if_neg h1] at h
      rw [objLookup, if_neg h1]
      exact ih h

lemma objLookup_mapSet_ne (o : Obj) (k k2 : String) (v : Value) (h : k2 ≠ k) :
    objLookup (o.map (fun kv => if kv.1 = k2 then (k2, v) else kv)) k
      = objLookup o k := by
  induction o with
  | nil => rfl
  | cons kv rest ih =>
    obtain ⟨k1, v1⟩ := kv
    rw [List.map_cons]
    by_cases h1 : k1 = k2
    · subst h1
      have hhead : (if (k1, v1).1 = k1 then (k1, v) else (k1, v1))
          = (k1, v) := by simp
      rw [hhead, objLookup, if_neg h, objLookup, if_neg h]
      exact ih
    · have hhead : (if (k1, v1).1 = k2 then (k2, v) else (k1, v1))
          = (k1, v1) := by simp [h1]
      rw [hhead]
      by_cases h2 : k1 = k
      · rw [objLookup, if_pos h2, objLookup, if_pos h2]
      · rw [objLookup, if_neg h2, objLookup, if_neg h2]
        exact ih

lemma objLookup_dictSet_ne (o : Obj) (k k2 : String) (v : Value)
    (h : k2 ≠ k) :
    objLookup (dictSet o k2 v) k = objLookup o k := by
  rw [dictSet]
  split_ifs with hs
  · exact objLookup_mapSet_ne o k k2 v h
  · cases ho : objLookup o k with
    | some w => exact objLookup_append_of_some o _ k w ho
    | none =>
      rw [objLookup_append_of_none o _ k ho, objLookup, if_neg h]
      rfl

lemma append_underscore_timestamp_ne (s : String) :
    s ++ "_timestamp" ≠ "timestamp" := by
  intro h
  have h2 : s.length + ("_timestamp").length = ("timestamp").length := by
    rw [← String.length_append, h]
  have h3 : ("_timestamp").length = 10 := rfl
  have h4 : ("timestamp").length = 9 := rfl
  omega

lemma objLookup_tbEntryUpdates_ne (r : Obj) (kv : String × List TBPoint)
    (h : kv.1 ≠ "timestamp") :
    objLookup (tbEntryUpdates r kv) "timestamp" = objLookup r "timestamp" := by
  obtain ⟨k, pts⟩ := kv
  have hk : k ≠ "timestamp" := h
  cases pts with
  | nil => rfl
  | cons p rest =>
    obtain ⟨pv, pts2⟩ := p
    cases pts2 with
    | none =>
      show objLookup (dictSet r k pv) "timestamp" = _
      exact objLookup_dictSet_ne r _ k pv hk
    | some t =>
      show objLookup (dictSet (dictSet r k pv) (k ++ "_timestamp")
        (Value.time (t / 1000))) "timestamp" = _
      rw [objLookup_dictSet_ne _ _ _ _ (append_underscore_timestamp_ne k)]
      exact objLookup_dictSet_ne r _ k pv hk

lemma objLookup_foldl_tb (l : List (String × List TBPoint)) :
    ∀ (acc : Obj), (∀ kv ∈ l, kv.1 ≠ "timestamp") →
      objLookup (l.foldl tbEntryUpdates acc) "timestamp"
        = objLookup acc "timestamp" := by
  induction l with
  | nil => intro acc _; rfl
  | cons kv rest ih =>
    intro acc hl
    rw [List.foldl_cons,
      ih (tbEntryUpdates acc kv) (fun x hx => hl x (List.mem_cons_of_mem kv hx)),
      objLookup_tbEntryUpdates_ne acc kv (hl kv (List.mem_cons_self kv rest))]

lemma workerLoop_length {β ε : Type} (stepBody : β → ε → Except String β) :
    ∀ (events : List ε) (buf : β),
      (workerLoop stepBody true events buf).2 = events.length := by
  intro events
  induction events with
  | nil => intro buf; rfl
  | cons e es ih =>
    intro buf
    rw [workerLoop]
    simp only [if_true, List.length_cons]
    rw [ih]

lemma workerLoop_false {β ε : Type} (stepBody : β → ε → Except String β)
    (events : List ε) (buf : β) :
    workerLoop stepBody false events buf = (buf, 0) := by
  cases events with
  | nil => rfl
  | cons e es => rw [workerLoop]; simp

lemma workerLoop_error_cons {β ε : Type} (stepBody : β → ε → Except String β)
    (e : ε) (es : List ε) (buf : β) (msg : String)
    (h : stepBody buf e = Except.error msg) :
    workerLoop stepBody true (e :: es) buf
      = ((workerLoop stepBody true es buf).1,
         (workerLoop stepBody true es buf).2 + 1) := by
  rw [workerLoop]
  simp [h]

/-- C7: for every simulator parameter setting (any base values, any noise
level, any state), every noise draw and every elapsed time (sine values),
the `ch4_concentration` field of a generated reading lies in `[0, 100]`. -/
theorem C7_ch4_concentration_in_range (sim : BiogasSensorSimulator)
    (sines : SineInputs) (noise : NoiseInputs) :
    0 ≤ (sim.generate_sensor_reading sines noise).ch4_concentration ∧
    (sim.generate_sensor_reading sines noise).ch4_concentration ≤ 100 := by
  have h1 : (sim.generate_sensor_reading sines noise).ch4_concentration
      = pyRound (sim.current_ch4 sines noise) 1 := rfl
  rw [h1, BiogasSensorSimulator.current_ch4]
  exact ⟨pyRound_nonneg _ _ (np_clip_nonneg _), pyRound_le_hundred _ _ (np_clip_le _)⟩

/-- C10: `adjust_ch4_concentration` clips every argument into `[0, 100]`
before storing it as the new base concentration, while the constructor
stores its `base_ch4_concentration` argument unchanged (no clipping). -/
theorem C10_adjust_clips_constructor_does_not (sim : BiogasSensorSimulator)
    (c base_temp base_pressure base_flow noise_level : ℚ) :
    0 ≤ (sim.adjust_ch4_concentration c).base_ch4_concentration ∧
    (sim.adjust_ch4_concentration c).base_ch4_concentration ≤ 100 ∧
    (BiogasSensorSimulator.init base_temp base_pressure base_flow c
      noise_level).base_ch4_concentration = c :=
  ⟨np_clip_nonneg c, np_clip_le c, rfl⟩

/-- C2: for every capacity `N > 0` and every sequence of `M > N` readings
inserted by the producer loops (queue-with-eviction for the simulator,
bounded deque for the serial reader), the get-all read returns exactly the
last `N` readings in their original relative insertion order. -/
theorem C2_get_all_returns_last_N {α : Type} (N : ℕ) (xs : List α)
    (hN : 0 < N) (hM : N < xs.length) :
    ThreadedSensorSimulator.get_all_data (List.foldl (queuePutEvict N) [] xs)
      = xs.drop (xs.length - N) ∧
    SerialDataReader.get_data_buffer (List.foldl (dequeAppend N) [] xs)
      = xs.drop (xs.length - N) ∧
    (xs.drop (xs.length - N)).length = N := by
  have hd : List.foldl (dequeAppend N) ([] : List α) xs
      = xs.drop (xs.length - N) := by
    rw [foldl_dequeAppend N xs [] (by simp)]
    simp
  have hq : List.foldl (queuePutEvict N) ([] : List α) xs
      = xs.drop (xs.length - N) := by
    rw [foldl_queuePutEvict N hN xs [] (by simp)]
    exact hd
  refine ⟨?_, ?_, ?_⟩
  · rw [get_all_data_eq, hq]
  · rw [SerialDataReader.get_data_buffer, hd]
  · rw [List.length_drop]
    omega

/-- Witness for C2 at `N = 2`, insertions `[0, 1, 2]`. -/
theorem C2_get_all_returns_last_N_witness :
    0 < 2 ∧ 2 < ([0, 1, 2] : List ℕ).length ∧
    (ThreadedSensorSimulator.get_all_data
        (List.foldl (queuePutEvict 2) [] [0, 1, 2])
      = ([0, 1, 2] : List ℕ).drop (([0, 1, 2] : List ℕ).length - 2) ∧
     SerialDataReader.get_data_buffer
        (List.foldl (dequeAppend 2) [] [0, 1, 2])
      = ([0, 1, 2] : List ℕ).drop (([0, 1, 2] : List ℕ).length - 2) ∧
     (([0, 1, 2] : List ℕ).drop (([0, 1, 2] : List ℕ).length - 2)).length = 2) :=
  ⟨by decide, by decide,
   C2_get_all_returns_last_N 2 [0, 1, 2] (by decide) (by decide)⟩

/-- C1 counterexample: the serial reader's latest-read is not a destructive
drain.  After a single insertion, `get_latest_data` returns the reading but
leaves the buffer holding it, and an immediate second call returns the same
reading again instead of `None`. -/
theorem C1_counterexample :
    SerialDataReader.get_latest_data (dequeAppend 1000 ([] : List ℕ) 7)
      = (some 7, [7]) ∧
    (SerialDataReader.get_latest_data
        ((SerialDataReader.get_latest_data
          (dequeAppend 1000 ([] : List ℕ) 7)).2)).1 = some 7 ∧
    (some 7 : Option ℕ) ≠ none := by
  decide

/-- C1 amended: only the simulated variant's `get_latest_data` drains the
buffer destructively: after `k ≥ 1` insertions into the drained (empty)
queue it returns the most recent of the `k` readings and leaves the queue
empty, so an immediate second call returns `None`.  The serial and remote
variants' latest-reads are non-destructive peeks at the newest element,
leaving the buffer unchanged. -/
theorem C1_amended_drain_only_simulated {α : Type} (N : ℕ) (xs : List α)
    (buf : List α) (hN : 0 < N) (hxs : xs ≠ []) :
    (ThreadedSensorSimulator.get_latest_data
        (List.foldl (queuePutEvict N) [] xs)).1 = xs.getLast? ∧
    (ThreadedSensorSimulator.get_latest_data
        (List.foldl (queuePutEvict N) [] xs)).2 = [] ∧
    ThreadedSensorSimulator.get_latest_data ([] : List α) = (none, []) ∧
    SerialDataReader.get_latest_data buf = (buf.getLast?, buf) ∧
    ThingsBoardSensorReader.get_latest_from_buffer buf = (buf.getLast?, buf) := by
  have hlen : 0 < xs.length := List.length_pos.mpr hxs
  have hfold : List.foldl (queuePutEvict N) ([] : List α) xs
      = xs.drop (xs.length - N) := by
    rw [foldl_queuePutEvict N hN xs [] (by simp),
      foldl_dequeAppend N xs [] (by simp)]
    simp
  have hne : xs.drop (xs.length - N) ≠ [] := by
    intro h
    have h2 := congrArg List.length h
    rw [List.length_drop] at h2
    simp at h2
    omega
  refine ⟨?_, ?_, rfl, rfl, rfl⟩
  · rw [hfold, ThreadedSensorSimulator.get_latest_data,
      drainLatest_eq _ none hne]
    exact getLast?_drop_of_lt _ _ (by omega)
  · rw [hfold, ThreadedSensorSimulator.get_latest_data,
      drainLatest_eq _ none hne]

/-- Witness for the amended C1 at `N = 3`, insertions `[1, 2]`,
peek buffer `[5]`. -/
theorem C1_amended_drain_only_simulated_witness :
    0 < 3 ∧ ([1, 2] : List ℕ) ≠ [] ∧
    ((ThreadedSensorSimulator.get_latest_data
        (List.foldl (queuePutEvict 3) [] [1, 2])).1 = ([1, 2] : List ℕ).getLast? ∧
     (ThreadedSensorSimulator.get_latest_data
        (List.foldl (queuePutEvict 3) [] [1, 2])).2 = [] ∧
     ThreadedSensorSimulator.get_latest_data ([] : List ℕ) = (none, []) ∧
     SerialDataReader.get_latest_data [5] = (([5] : List ℕ).getLast?, [5]) ∧
     ThingsBoardSensorReader.get_latest_from_buffer [5]
       = (([5] : List ℕ).getLast?, [5])) :=
  ⟨by decide, by decide,
   C1_amended_drain_only_simulated 3 [1, 2] [5] (by decide) (by decide)⟩

/-- C3 counterexample: `SerialDataReader.start` performs no running check;
called on an already-running reader (with a live thread) it spawns a second
reader thread, so it is not a no-op. -/
theorem C3_counterexample :
    (SerialDataReader.start true { running := true, threads := 1 }).1
      = { running := true, threads := 2 } ∧
    ({ running := true, threads := 2 } : WorkerState)
      ≠ { running := true, threads := 1 } := by
  decide

/-- C3 amended: `start` is a no-op on a running worker for the simulated
and remote variants, while the serial variant's `start` unconditionally
spawns another reader thread; for all three variants `stop` clears the
running flag (and joins), and a loop whose running flag is cleared executes
no further iteration. -/
theorem C3_amended_start_stop {β ε : Type} (s : WorkerState)
    (h : s.running = true) (stepBody : β → ε → Except String β)
    (events : List ε) (buf : β) :
    ThreadedSensorSimulator.start s = s ∧
    ThingsBoardSensorReader.start_continuous_reading s = s ∧
    (SerialDataReader.start true s).1.threads = s.threads + 1 ∧
    (ThreadedSensorSimulator.stop s).running = false ∧
    (SerialDataReader.stop s).running = false ∧
    (ThingsBoardSensorReader.stop_continuous_reading s).running = false ∧
    workerLoop stepBody false events buf = (buf, 0) := by
  refine ⟨?_, ?_, rfl, rfl, rfl, ?_, workerLoop_false stepBody events buf⟩
  · rw [ThreadedSensorSimulator.start, if_pos h]
  · rw [ThingsBoardSensorReader.start_continuous_reading, if_pos h]
  · rw [ThingsBoardSensorReader.stop_continuous_reading, if_pos h]

/-- Witness for the amended C3 on a running worker with one live thread and
a one-event trace for a concrete simulator step body. -/
theorem C3_amended_start_stop_witness :
    ThreadedSensorSimulator.start { running := true, threads := 1 }
      = { running := true, threads := 1 } ∧
    ThingsBoardSensorReader.start_continuous_reading
        { running := true, threads := 1 }
      = { running := true, threads := 1 } ∧
    (SerialDataReader.start true { running := true, threads := 1 }).1.threads
      = ({ running := true, threads := 1 } : WorkerState).threads + 1 ∧
    (ThreadedSensorSimulator.stop { running := true, threads := 1 }).running
      = false ∧
    (SerialDataReader.stop { running := true, threads := 1 }).running = false ∧
    (ThingsBoardSensorReader.stop_continuous_reading
        { running := true, threads := 1 }).running = false ∧
    workerLoop (simStepBody (BiogasSensorSimulator.init 25 101.325 10 60 0.05))
        false [SimEvent.raise "boom"] [] = ([], 0) :=
  C3_amended_start_stop { running := true, threads := 1 } rfl
    (simStepBody (BiogasSensorSimulator.init 25 101.325 10 60 0.05))
    [SimEvent.raise "boom"] []

/-- C4: for every worker variant, an exception raised during one iteration
of the producer loop never terminates the worker: while the running flag
is set the loop executes one iteration per event of its trace (so it
always reaches the next iteration), and a cycle whose body raises leaves
the buffer unchanged while still counting as one completed iteration. -/
theorem C4_iteration_errors_are_skipped (sim : BiogasSensorSimulator)
    (mbs : ℕ) (device_name device_id : String) (msg : String)
    (simEvents : List SimEvent) (simBuf : List StampedReading)
    (serialEvents : List SerialEvent) (serialBuf : List Obj)
    (tbEvents : List TBEvent) (tbBuf : List Obj) :
    (workerLoop (simStepBody sim) true simEvents simBuf).2
      = simEvents.length ∧
    (workerLoop (serialStepBody mbs) true serialEvents serialBuf).2
      = serialEvents.length ∧
    (workerLoop (tbStepBody device_name device_id mbs) true tbEvents tbBuf).2
      = tbEvents.length ∧
    workerLoop (simStepBody sim) true (SimEvent.raise msg :: simEvents) simBuf
      = ((workerLoop (simStepBody sim) true simEvents simBuf).1,
         simEvents.length + 1) ∧
    workerLoop (serialStepBody mbs) true
        (SerialEvent.raise msg :: serialEvents) serialBuf
      = ((workerLoop (serialStepBody mbs) true serialEvents serialBuf).1,
         serialEvents.length + 1) ∧
    workerLoop (tbStepBody device_name device_id mbs) true
        (TBEvent.raise msg :: tbEvents) tbBuf
      = ((workerLoop (tbStepBody device_name device_id mbs) true tbEvents tbBuf).1,
         tbEvents.length + 1) := by
  refine ⟨workerLoop_length _ _ _, workerLoop_length _ _ _,
    workerLoop_length _ _ _, ?_, ?_, ?_⟩
  · rw [workerLoop_error_cons _ _ _ _ msg rfl, workerLoop_length]
  · rw [workerLoop_error_cons _ _ _ _ msg rfl, workerLoop_length]
  · rw [workerLoop_error_cons _ _ _ _ msg rfl, workerLoop_length]

lemma getLast?_queuePutEvict {α : Type} (N : ℕ) (q : List α) (x : α) :
    (queuePutEvict N q x).getLast? = some x := by
  rw [queuePutEvict]
  split_ifs <;> simp

lemma parse_nonjson_timestamp (now : ℚ) (line : String) (obj : Obj)
    (hline : startsWithLBrace (pyStrip line.toList) = false)
    (hparse : (SerialDataReader.parse_serial_line now line).1 = some obj) :
    objLookup obj "timestamp" = some (Value.time now) := by
  rw [SerialDataReader.parse_serial_line] at hparse
  simp only [hline, Bool.false_eq_true, if_false] at hparse
  cases hsp : splitCommas (pyStrip line.toList) with
  | nil => rw [hsp] at hparse; simp at hparse
  | cons p0 ps =>
    cases ps with
    | nil => rw [hsp] at hparse; simp at hparse
    | cons p1 ps =>
      cases ps with
      | nil => rw [hsp] at hparse; simp at hparse
      | cons p2 ps =>
        cases ps with
        | nil => rw [hsp] at hparse; simp at hparse
        | cons p3 ps =>
          cases ps with
          | nil => rw [hsp] at hparse; simp at hparse
          | cons p4 rest =>
            rw [hsp] at hparse
            replace hparse :
                (match pyFloat p0, pyFloat p1, pyFloat p2, pyFloat p3,
                    pyFloat p4 with
                  | some f0, some f1, some f2, some f3, some f4 =>
                    (some [("timestamp", Value.time now),
                           ("state", Value.int (int_of_float f0)),
                           ("temp", Value.num f1),
                           ("pressure", Value.num f2),
                           ("flow", Value.num f3),
                           ("comp", Value.num f4)], false)
                  | _, _, _, _, _ => ((none : Option Obj), true)).1
                  = some obj := hparse
            cases hf0 : pyFloat p0 with
            | none => rw [hf0] at hparse; simp at hparse
            | some f0 =>
              rw [hf0] at hparse
              cases hf1 : pyFloat p1 with
              | none => rw [hf1] at hparse; simp at hparse
              | some f1 =>
                rw [hf1] at hparse
                cases hf2 : pyFloat p2 with
                | none => rw [hf2] at hparse; simp at hparse
                | some f2 =>
                  rw [hf2] at hparse
                  cases hf3 : pyFloat p3 with
                  | none => rw [hf3] at hparse; simp at hparse
                  | some f3 =>
                    rw [hf3] at hparse
                    cases hf4 : pyFloat p4 with
                    | none => rw [hf4] at hparse; simp at hparse
                    | some f4 =>
                      rw [hf4] at hparse
                      simp only [Option.some.injEq] at hparse
                      rw [← hparse]
                      rfl

/-- C5 counterexample: parsing `"bad,line"` returns `None` but, contrary to
the claim, nothing is logged: the line splits into fewer than 5 fields, so
no exception occurs and the `except` branch (the only place that prints)
is never reached — the logged flag is `false`. -/
theorem C5_counterexample :
    SerialDataReader.parse_serial_line 0 "bad,line" = (none, false) := rfl

/-- C5 amended: parsing `"2,25.3,101.2,10.1,0.72"` yields the reading with
state 2, temp 25.3, pressure 101.2, flow 10.1, comp 0.72 (and a producer
timestamp), without logging.  Parsing `"bad,line"` yields no reading and
nothing is raised to the caller, but it is also not logged (short lines
fall through silently); a parse failure is logged only when an exception
occurs, e.g. the 5-field non-numeric line `"a,b,c,d,e"`. -/
theorem C5_amended_parse (now : ℚ) :
    SerialDataReader.parse_serial_line now "2,25.3,101.2,10.1,0.72"
      = (some [("timestamp", Value.time now), ("state", Value.int 2),
               ("temp", Value.num 25.3), ("pressure", Value.num 101.2),
               ("flow", Value.num 10.1), ("comp", Value.num 0.72)], false) ∧
    SerialDataReader.parse_serial_line now "bad,line" = (none, false) ∧
    SerialDataReader.parse_serial_line now "a,b,c,d,e" = (none, true) := by
  refine ⟨?_, rfl, rfl⟩
  have h : SerialDataReader.parse_serial_line now "2,25.3,101.2,10.1,0.72"
      = (some [("timestamp", Value.time now),
          ("state", Value.int (int_of_float (digitsVal ['2'] : ℚ))),
          ("temp", Value.num ((digitsVal ['2', '5'] : ℚ)
            + (digitsVal ['3'] : ℚ) / 10 ^ (['3'] : List Char).length)),
          ("pressure", Value.num ((digitsVal ['1', '0', '1'] : ℚ)
            + (digitsVal ['2'] : ℚ) / 10 ^ (['2'] : List Char).length)),
          ("flow", Value.num ((digitsVal ['1', '0'] : ℚ)
            + (digitsVal ['1'] : ℚ) / 10 ^ (['1'] : List Char).length)),
          ("comp", Value.num ((digitsVal ['0'] : ℚ)
            + (digitsVal ['7', '2'] : ℚ) / 10 ^ (['7', '2'] : List Char).length))],
         false) := rfl
  rw [h]
  norm_num [show digitsVal ['2'] = 2 from rfl,
    show digitsVal ['2', '5'] = 25 from rfl,
    show digitsVal ['3'] = 3 from rfl,
    show digitsVal ['1', '0', '1'] = 101 from rfl,
    show digitsVal ['1', '0'] = 10 from rfl,
    show digitsVal ['1'] = 1 from rfl,
    show digitsVal ['0'] = 0 from rfl,
    show digitsVal ['7', '2'] = 72 from rfl,
    show (['3'] : List Char).length = 1 from rfl,
    show (['2'] : List Char).length = 1 from rfl,
    show (['1'] : List Char).length = 1 from rfl,
    show (['7', '2'] : List Char).length = 2 from rfl,
    int_of_float]

/-- C6 counterexample: the serial JSON branch does not stamp.  The JSON
line `\x7b"state":0\x7d` carries no timestamp; `parse_serial_line` returns
the parsed object unchanged and the `read_data` loop inserts it into the
buffer without a `timestamp` key. -/
theorem C6_counterexample :
    (SerialDataReader.parse_serial_line 0 "\x7b\"state\":0\x7d").1
      = some [("state", Value.num 0)] ∧
    objLookup [("state", Value.num 0)] "timestamp" = none ∧
    serialStepBody 1000 [] (SerialEvent.line "\x7b\"state\":0\x7d" 0)
      = Except.ok [[("state", Value.num 0)]] := by
  refine ⟨rfl, rfl, rfl⟩

/-- C6 amended: readings are timestamped before buffer insertion by the
simulated worker (which stamps every generated reading with the current
time), by the remote reader (whose `get_latest_reading` seeds each dict
with the current time, provided the device does not itself publish a
telemetry key named `timestamp`), and by the serial CSV parse branch
(which builds its dict with a `timestamp` entry).  The serial JSON branch,
by contrast, inserts the parsed object exactly as `json.loads` returned
it (see the counterexample). -/
theorem C6_amended_stamping (sim : BiogasSensorSimulator) (sines : SineInputs)
    (noise : NoiseInputs) (now : ℚ) (simBuf simBuf2 : List StampedReading)
    (device_name device_id : String)
    (telemetry : List (String × List TBPoint)) (tbObj obj : Obj) (line : String)
    (hsim : simStepBody sim simBuf (SimEvent.sample sines noise now)
      = Except.ok simBuf2)
    (htel : telemetry ≠ [])
    (hkeys : ∀ kv ∈ telemetry, kv.1 ≠ "timestamp")
    (htb : ThingsBoardSensorReader.get_latest_reading device_name device_id
      now telemetry = some tbObj)
    (hline : startsWithLBrace (pyStrip line.toList) = false)
    (hparse : (SerialDataReader.parse_serial_line now line).1 = some obj) :
    simBuf2.getLast?
      = some { reading := sim.generate_sensor_reading sines noise,
               timestamp := now } ∧
    objLookup tbObj "timestamp" = some (Value.time now) ∧
    objLookup obj "timestamp" = some (Value.time now) := by
  refine ⟨?_, ?_, parse_nonjson_timestamp now line obj hline hparse⟩
  · have h1 : simBuf2 = queuePutEvict 1000 simBuf
        { reading := sim.generate_sensor_reading sines noise,
          timestamp := now } := by
      have h2 := hsim
      rw [simStepBody] at h2
      simp only [Except.ok.injEq] at h2
      exact h2.symm
    rw [h1, getLast?_queuePutEvict]
  · have h3 := htb
    rw [ThingsBoardSensorReader.get_latest_reading, if_neg htel] at h3
    simp only [Option.some.injEq] at h3
    rw [← h3, objLookup_foldl_tb telemetry _ hkeys]
    rfl

/-- Witness for the amended C6 with a concrete simulator sample, a
one-key telemetry poll, and the CSV line `"1,2,3,4,5"`, all at time 5. -/
theorem C6_amended_stamping_witness :
    (queuePutEvict 1000 ([] : List StampedReading) sampleStamped).getLast?
      = some { reading := simDefault.generate_sensor_reading zeroSines zeroNoise,
               timestamp := 5 } ∧
    objLookup (sampleTelemetry.foldl tbEntryUpdates tbSeed) "timestamp"
      = some (Value.time 5) ∧
    objLookup sampleCsvObj "timestamp" = some (Value.time 5) :=
  C6_amended_stamping simDefault zeroSines zeroNoise 5 []
    (queuePutEvict 1000 [] sampleStamped) "dev" "id0" sampleTelemetry
    (sampleTelemetry.foldl tbEntryUpdates tbSeed) sampleCsvObj
    "1,2,3,4,5" rfl (List.cons_ne_nil _ _) (by decide) rfl rfl rfl

/-- C8 counterexample: the `comp` field of a generated reading is the
power ratio rounded to 3 decimals, so even at zero noise it is not exactly
`comp_power / flow_power` when the ratio needs more decimals: with
`base_temp = 26` the ratio is `121/54 = 2.2407...` while the stored field
is `2.241`. -/
theorem C8_counterexample :
    (simAt26.generate_sensor_reading zeroSines zeroNoise).comp
      ≠ simAt26.comp_power zeroSines zeroNoise
          / simAt26.flow_power zeroSines zeroNoise := by
  have hr : simAt26.comp_power zeroSines zeroNoise
      / simAt26.flow_power zeroSines zeroNoise = 121 / 54 := by
    simp [BiogasSensorSimulator.comp_power, BiogasSensorSimulator.flow_power,
      BiogasSensorSimulator.comp_temp, BiogasSensorSimulator.flow_temp,
      BiogasSensorSimulator.current_temp, BiogasSensorSimulator._add_noise,
      BiogasSensorSimulator._generate_sine_variation, flow_power_of_temp,
      comp_power_of_temp, simAt26, BiogasSensorSimulator.init,
      zeroSines, zeroNoise]
    norm_num
  have hc : (simAt26.generate_sensor_reading zeroSines zeroNoise).comp
      = pyRound (121 / 54) 3 := by
    have h1 : (simAt26.generate_sensor_reading zeroSines zeroNoise).comp
        = pyRound (simAt26.comp_ratio zeroSines zeroNoise) 3 := rfl
    have h2 : simAt26.comp_ratio zeroSines zeroNoise
        = simAt26.comp_power zeroSines zeroNoise
            / simAt26.flow_power zeroSines zeroNoise := by
      rw [BiogasSensorSimulator.comp_ratio, BiogasSensorSimulator._add_noise,
        show simAt26.noise_level = 0 from rfl]
      ring
    rw [h1, h2, hr]
  have hp : pyRound (121 / 54) 3 = 2241 / 1000 := by
    rw [pyRound]
    have hfl : ⌊(121 / 54 : ℚ) * 10 ^ 3⌋ = 2240 := by
      rw [Int.floor_eq_iff]
      constructor <;> norm_num
    rw [roundHalfEven, hfl, if_neg (by norm_num), if_pos (by norm_num)]
    norm_num
  rw [hc, hr, hp]
  norm_num

/-- C8 amended: with the noise level held at zero, the computed
compensation ratio equals `comp_power / flow_power` exactly, and the
reading's `comp` field stores that exact ratio rounded to 3 decimals;
each power equals its affine model of the corresponding thermistor
temperature, and both affine models are strictly monotonically
increasing. -/
theorem C8_amended_ratio_and_powers (sim : BiogasSensorSimulator)
    (sines : SineInputs) (noise : NoiseInputs) (h : sim.noise_level = 0) :
    sim.comp_ratio sines noise
      = sim.comp_power sines noise / sim.flow_power sines noise ∧
    (sim.generate_sensor_reading sines noise).comp
      = pyRound (sim.comp_power sines noise / sim.flow_power sines noise) 3 ∧
    sim.flow_power sines noise
      = flow_power_of_temp (sim.flow_temp sines noise) ∧
    sim.comp_power sines noise
      = comp_power_of_temp (sim.comp_temp sines noise) ∧
    StrictMono flow_power_of_temp ∧ StrictMono comp_power_of_temp := by
  have hn : ∀ v f z, sim._add_noise v f z = v := by
    intro v f z
    rw [BiogasSensorSimulator._add_noise, h]
    ring
  have hc1 : sim.comp_ratio sines noise
      = sim.comp_power sines noise / sim.flow_power sines noise := by
    rw [BiogasSensorSimulator.comp_ratio]
    exact hn _ _ _
  have hfp : sim.flow_power sines noise
      = flow_power_of_temp (sim.flow_temp sines noise) := by
    rw [BiogasSensorSimulator.flow_power]
    exact hn _ _ _
  have hcp : sim.comp_power sines noise
      = comp_power_of_temp (sim.comp_temp sines noise) := by
    rw [BiogasSensorSimulator.comp_power]
    exact hn _ _ _
  refine ⟨hc1, ?_, hfp, hcp, ?_, ?_⟩
  · have h1 : (sim.generate_sensor_reading sines noise).comp
        = pyRound (sim.comp_ratio sines noise) 3 := rfl
    rw [h1, hc1]
  · intro a b hab
    have h2 : (0.01 : ℚ) * a < 0.01 * b :=
      mul_lt_mul_of_pos_left hab (by norm_num)
    simp only [flow_power_of_temp]
    linarith
  · intro a b hab
    have h2 : (0.015 : ℚ) * a < 0.015 * b :=
      mul_lt_mul_of_pos_left hab (by norm_num)
    simp only [comp_power_of_temp]
    linarith

/-- Witness for the amended C8 at the zero-noise simulator `simAt26`. -/
theorem C8_amended_ratio_and_powers_witness :
    simAt26.comp_ratio zeroSines zeroNoise
      = simAt26.comp_power zeroSines zeroNoise
          / simAt26.flow_power zeroSines zeroNoise ∧
    (simAt26.generate_sensor_reading zeroSines zeroNoise).comp
      = pyRound (simAt26.comp_power zeroSines zeroNoise
          / simAt26.flow_power zeroSines zeroNoise) 3 ∧
    simAt26.flow_power zeroSines zeroNoise
      = flow_power_of_temp (simAt26.flow_temp zeroSines zeroNoise) ∧
    simAt26.comp_power zeroSines zeroNoise
      = comp_power_of_temp (simAt26.comp_temp zeroSines zeroNoise) ∧
    StrictMono flow_power_of_temp ∧ StrictMono comp_power_of_temp :=
  C8_amended_ratio_and_powers simAt26 zeroSines zeroNoise rfl

/-- C9 counterexample: the extended row does not apply the device
multiplier to the input voltages: at zero noise `d1_vin_flow` equals
`d0_vin_flow` (both are the fixed base 3.3) instead of being 1.05 times
it. -/
theorem C9_counterexample :
    (simDefaultsNoNoise.generate_csv_row zeroSines zeroNoise 0 0
        zeroDevNoise zeroDevNoise).d1.vin_flow
      = (simDefaultsNoNoise.generate_csv_row zeroSines zeroNoise 0 0
        zeroDevNoise zeroDevNoise).d0.vin_flow ∧
    (simDefaultsNoNoise.generate_csv_row zeroSines zeroNoise 0 0
        zeroDevNoise zeroDevNoise).d1.vin_flow
      ≠ 1.05 * (simDefaultsNoNoise.generate_csv_row zeroSines zeroNoise 0 0
        zeroDevNoise zeroDevNoise).d0.vin_flow := by
  have h1 : (simDefaultsNoNoise.generate_csv_row zeroSines zeroNoise 0 0
      zeroDevNoise zeroDevNoise).d1.vin_flow = 3.3 := by
    simp [BiogasSensorSimulator.generate_csv_row,
      BiogasSensorSimulator.deviceReadings, BiogasSensorSimulator._add_noise,
      zeroDevNoise]
  have h0 : (simDefaultsNoNoise.generate_csv_row zeroSines zeroNoise 0 0
      zeroDevNoise zeroDevNoise).d0.vin_flow = 3.3 := by
    simp [BiogasSensorSimulator.generate_csv_row,
      BiogasSensorSimulator.deviceReadings, BiogasSensorSimulator._add_noise,
      zeroDevNoise]
  rw [h1, h0]
  exact ⟨rfl, by norm_num⟩

/-- C9 amended: (at zero noise) the extended CSV row reuses the compact
reading for its shared fields, and applies the fixed multiplier (1.0 for
device 0, 1.05 for device 1) to the per-device ambient/flow/compensation
temperatures, pressure, powers and output voltages — but not to the input
voltages, which are the fixed base 3.3 for both devices. -/
theorem C9_amended_multiplier (sim : BiogasSensorSimulator)
    (sines : SineInputs) (noise : NoiseInputs) (now zH : ℚ)
    (z0 z1 : DevNoise) (h : sim.noise_level = 0) :
    (sim.generate_csv_row sines noise now zH z0 z1).temp_degC
      = (sim.generate_sensor_reading sines noise).temp ∧
    (sim.generate_csv_row sines noise now zH z0 z1).flow
      = (sim.generate_sensor_reading sines noise).flow ∧
    (sim.generate_csv_row sines noise now zH z0 z1).concentration_ch4
      = (sim.generate_sensor_reading sines noise).ch4_concentration ∧
    (sim.generate_csv_row sines noise now zH z0 z1).d0.state
      = (sim.generate_sensor_reading sines noise).state ∧
    (sim.generate_csv_row sines noise now zH z0 z1).d1.state
      = (sim.generate_sensor_reading sines noise).state ∧
    (sim.generate_csv_row sines noise now zH z0 z1).d1.temp_ambient
      = 1.05 * (sim.generate_csv_row sines noise now zH z0 z1).d0.temp_ambient ∧
    (sim.generate_csv_row sines noise now zH z0 z1).d1.pressure
      = 1.05 * (sim.generate_csv_row sines noise now zH z0 z1).d0.pressure ∧
    (sim.generate_csv_row sines noise now zH z0 z1).d1.temp_flow
      = 1.05 * (sim.generate_csv_row sines noise now zH z0 z1).d0.temp_flow ∧
    (sim.generate_csv_row sines noise now zH z0 z1).d1.power_flow
      = 1.05 * (sim.generate_csv_row sines noise now zH z0 z1).d0.power_flow ∧
    (sim.generate_csv_row sines noise now zH z0 z1).d1.vout_flow
      = 1.05 * (sim.generate_csv_row sines noise now zH z0 z1).d0.vout_flow ∧
    (sim.generate_csv_row sines noise now zH z0 z1).d1.temp_comp
      = 1.05 * (sim.generate_csv_row sines noise now zH z0 z1).d0.temp_comp ∧
    (sim.generate_csv_row sines noise now zH z0 z1).d1.power_comp
      = 1.05 * (sim.generate_csv_row sines noise now zH z0 z1).d0.power_comp ∧
    (sim.generate_csv_row sines noise now zH z0 z1).d1.vout_comp
      = 1.05 * (sim.generate_csv_row sines noise now zH z0 z1).d0.vout_comp ∧
    (sim.generate_csv_row sines noise now zH z0 z1).d0.vin_flow = 3.3 ∧
    (sim.generate_csv_row sines noise now zH z0 z1).d1.vin_flow = 3.3 ∧
    (sim.generate_csv_row sines noise now zH z0 z1).d0.vin_comp = 3.3 ∧
    (sim.generate_csv_row sines noise now zH z0 z1).d1.vin_comp = 3.3 := by
  have hn : ∀ v f z, sim._add_noise v f z = v := by
    intro v f z
    rw [BiogasSensorSimulator._add_noise, h]
    ring
  simp only [BiogasSensorSimulator.generate_csv_row,
    BiogasSensorSimulator.deviceReadings, hn]
  repeat' apply And.intro
  all_goals first | trivial | ring

/-- Witness for the amended C9 at the default zero-noise simulator. -/
theorem C9_amended_multiplier_witness :
    (simDefaultsNoNoise.generate_csv_row zeroSines zeroNoise 0 0
        zeroDevNoise zeroDevNoise).temp_degC
      = (simDefaultsNoNoise.generate_sensor_reading zeroSines zeroNoise).temp ∧
    (simDefaultsNoNoise.generate_csv_row zeroSines zeroNoise 0 0
        zeroDevNoise zeroDevNoise).flow
      = (simDefaultsNoNoise.generate_sensor_reading zeroSines zeroNoise).flow ∧
    (simDefaultsNoNoise.generate_csv_row zeroSines zeroNoise 0 0
        zeroDevNoise zeroDevNoise).concentration_ch4
      = (simDefaultsNoNoise.generate_sensor_reading zeroSines
          zeroNoise).ch4_concentration ∧
    (simDefaultsNoNoise.generate_csv_row zeroSines zeroNoise 0 0
        zeroDevNoise zeroDevNoise).d0.state
      = (simDefaultsNoNoise.generate_sensor_reading zeroSines zeroNoise).state ∧
    (simDefaultsNoNoise.generate_csv_row zeroSines zeroNoise 0 0
        zeroDevNoise zeroDevNoise).d1.state
      = (simDefaultsNoNoise.generate_sensor_reading zeroSines zeroNoise).state ∧
    (simDefaultsNoNoise.generate_csv_row zeroSines zeroNoise 0 0
        zeroDevNoise zeroDevNoise).d1.temp_ambient
      = 1.05 * (simDefaultsNoNoise.generate_csv_row zeroSines zeroNoise 0 0
        zeroDevNoise zeroDevNoise).d0.temp_ambient ∧
    (simDefaultsNoNoise.generate_csv_row zeroSines zeroNoise 0 0
        zeroDevNoise zeroDevNoise).d1.pressure
      = 1.05 * (simDefaultsNoNoise.generate_csv_row zeroSines zeroNoise 0 0
        zeroDevNoise zeroDevNoise).d0.pressure ∧
    (simDefaultsNoNoise.generate_csv_row zeroSines zeroNoise 0 0
        zeroDevNoise zeroDevNoise).d1.temp_flow
      = 1.05 * (simDefaultsNoNoise.generate_csv_row zeroSines zeroNoise 0 0
        zeroDevNoise zeroDevNoise).d0.temp_flow ∧
    (simDefaultsNoNoise.generate_csv_row zeroSines zeroNoise 0 0
        zeroDevNoise zeroDevNoise).d1.power_flow
      = 1.05 * (simDefaultsNoNoise.generate_csv_row zeroSines zeroNoise 0 0
        zeroDevNoise zeroDevNoise).d0.power_flow ∧
    (simDefaultsNoNoise.generate_csv_row zeroSines zeroNoise 0 0
        zeroDevNoise zeroDevNoise).d1.vout_flow
      = 1.05 * (simDefaultsNoNoise.generate_csv_row zeroSines zeroNoise 0 0
        zeroDevNoise zeroDevNoise).d0.vout_flow ∧
    (simDefaultsNoNoise.generate_csv_row zeroSines zeroNoise 0 0
        zeroDevNoise zeroDevNoise).d1.temp_comp
      = 1.05 * (simDefaultsNoNoise.generate_csv_row zeroSines zeroNoise 0 0
        zeroDevNoise zeroDevNoise).d0.temp_comp ∧
    (simDefaultsNoNoise.generate_csv_row zeroSines zeroNoise 0 0
        zeroDevNoise zeroDevNoise).d1.power_comp
      = 1.05 * (simDefaultsNoNoise.generate_csv_row zeroSines zeroNoise 0 0
        zeroDevNoise zeroDevNoise).d0.power_comp ∧
    (simDefaultsNoNoise.generate_csv_row zeroSines zeroNoise 0 0
        zeroDevNoise zeroDevNoise).d1.vout_comp
      = 1.05 * (simDefaultsNoNoise.generate_csv_row zeroSines zeroNoise 0 0
        zeroDevNoise zeroDevNoise).d0.vout_comp ∧
    (simDefaultsNoNoise.generate_csv_row zeroSines zeroNoise 0 0
        zeroDevNoise zeroDevNoise).d0.vin_flow = 3.3 ∧
    (simDefaultsNoNoise.generate_csv_row zeroSines zeroNoise 0 0
        zeroDevNoise zeroDevNoise).d1.vin_flow = 3.3 ∧
    (simDefaultsNoNoise.generate_csv_row zeroSines zeroNoise 0 0
        zeroDevNoise zeroDevNoise).d0.vin_comp = 3.3 ∧
    (simDefaultsNoNoise.generate_csv_row zeroSines zeroNoise 0 0
        zeroDevNoise zeroDevNoise).d1.vin_comp = 3.3 :=
  C9_amended_multiplier simDefaultsNoNoise zeroSines zeroNoise 0 0
    zeroDevNoise zeroDevNoise rfl
